import Mathlib

/-!
# Verification of the supersonic subsonic media-provider core

A shallow embedding of the Go sources:
* `backend/mediaprovider/mediaprovider.go` — the domain-model filter engine
  (`AlbumFilter`, `IsNil`, `Matches`, `genresMatch`);
* the subsonic provider file (package `subsonic`) — entity translators
  (`toTrack`, `toAlbum`, `fillAlbum`, `normalizeReleaseTypes`, `toPlaylist`,
  the genre translation closure), the TTL caches in `GetGenres` /
  `GetPlaylists`, the batched mutator `SetRating`, the capability check
  `CanStreamWithOffset`, and the playback reporter `TrackEndedPlayback`.

Go machine integers (`int`, `int64`) are embedded as `Int`; Go slices as
`List`; Go `error` results as `Option String` / `Except String` (`none` /
`Except.ok` = nil error); `time.Time` "starred" stamps as an `Int` unix value
whose `IsZero` test is `= 0`.  External collaborator calls (the
`subsonic.Client`) are passed in as explicit arguments holding the outcome
the transport would have produced, and stateful methods take and return the
provider state explicitly.
-/

namespace Supersonic

/-! ## Release-type bitmask

Modelled from the spec: the `mediaprovider.ReleaseTypes` bit-flag enumeration
is declared outside the given source files; per the spec it is "a normalized
bitmask enumeration" with one distinct bit per category (album, audiobook,
audio-drama, broadcast, compilation, demo, DJ-mix, EP, field-recording,
interview, live, mixtape, remix, single, soundtrack, spoken-word). -/

def ReleaseTypeAlbum : Nat := 1

def ReleaseTypeAudiobook : Nat := 2

def ReleaseTypeAudioDrama : Nat := 4

def ReleaseTypeBroadcast : Nat := 8

def ReleaseTypeCompilation : Nat := 16

def ReleaseTypeDemo : Nat := 32

def ReleaseTypeDJMix : Nat := 64

def ReleaseTypeEP : Nat := 128

def ReleaseTypeFieldRecording : Nat := 256

def ReleaseTypeInterview : Nat := 512

def ReleaseTypeLive : Nat := 1024

def ReleaseTypeMixtape : Nat := 2048

def ReleaseTypeRemix : Nat := 4096

def ReleaseTypeSingle : Nat := 8192

def ReleaseTypeSoundtrack : Nat := 16384

def ReleaseTypeSpokenWord : Nat := 32768

/-- The label normalization applied by the `switch` scrutinee in
`normalizeReleaseTypes`: `strings.ToLower(strings.ReplaceAll(t, " ", ""))`. -/
def normalizeLabel (t : String) : String :=
  (t.replace " " "").toLower

/-- `normalizeReleaseTypes` from the subsonic provider file: fold each
recognized (normalized) label into the mask with bitwise or, ignore
unrecognized labels, and default to the album bit when the mask is zero. -/
def normalizeReleaseTypes (releaseTypes : List String) : Nat :=
  let mpReleaseTypes := releaseTypes.foldl (fun acc t =>
    match normalizeLabel t with
    | "album" => acc ||| ReleaseTypeAlbum
    | "audiobook" => acc ||| ReleaseTypeAudiobook
    | "audiodrama" => acc ||| ReleaseTypeAudioDrama
    | "broadcast" => acc ||| ReleaseTypeBroadcast
    | "compilation" => acc ||| ReleaseTypeCompilation
    | "demo" => acc ||| ReleaseTypeDemo
    | "djmix" => acc ||| ReleaseTypeDJMix
    | "ep" => acc ||| ReleaseTypeEP
    | "fieldrecording" => acc ||| ReleaseTypeFieldRecording
    | "interview" => acc ||| ReleaseTypeInterview
    | "live" => acc ||| ReleaseTypeLive
    | "mixtape" => acc ||| ReleaseTypeMixtape
    | "remix" => acc ||| ReleaseTypeRemix
    | "single" => acc ||| ReleaseTypeSingle
    | "soundtrack" => acc ||| ReleaseTypeSoundtrack
    | "spokenword" => acc ||| ReleaseTypeSpokenWord
    | _ => acc) 0
  if mpReleaseTypes = 0 then ReleaseTypeAlbum else mpReleaseTypes

/-! ## Server-side record types

Embeddings of the `go-subsonic` wire structs consumed by the translators.
Only the fields the translated code reads are carried.  Every field carries
its Go zero value as default, so a record literal mentioning a few fields
matches a Go composite literal. -/

/-- An entry of the OpenSubsonic multi-artist extension list
(`Child.Artists` / `AlbumID3.Artists`). -/
structure ArtistRef where
  id : String := ""
  name : String := ""
deriving Repr, DecidableEq

/-- An entry of the OpenSubsonic multi-genre extension list
(`AlbumID3.Genres`). -/
structure ItemGenre where
  name : String := ""
deriving Repr, DecidableEq

/-- `subsonic.Child`: a server track record. `starred` holds the unix value
of the starred timestamp, `0` standing for the `time.Time` zero value. -/
structure Child where
  id : String := ""
  coverArt : String := ""
  parent : String := ""
  title : String := ""
  duration : Int := 0
  track : Int := 0
  discNumber : Int := 0
  genre : String := ""
  artists : List ArtistRef := []
  artist : String := ""
  artistID : String := ""
  album : String := ""
  albumID : String := ""
  year : Int := 0
  userRating : Int := 0
  starred : Int := 0
  playCount : Int := 0
  path : String := ""
  size : Int := 0
  bitRate : Int := 0
  comment : String := ""
deriving Repr, DecidableEq

/-- `subsonic.AlbumID3`: a server album record, with the nested `Song`
track list used by `GetAlbum`. -/
structure AlbumID3 where
  id : String := ""
  coverArt : String := ""
  name : String := ""
  duration : Int := 0
  artists : List ArtistRef := []
  artist : String := ""
  artistID : String := ""
  year : Int := 0
  songCount : Int := 0
  genres : List ItemGenre := []
  genre : String := ""
  starred : Int := 0
  releaseTypes : List String := []
  isCompilation : Bool := false
  song : List Child := []
deriving Repr, DecidableEq

/-! ## Domain model -/

/-- `mediaprovider.Track`. -/
structure Track where
  id : String
  coverArtID : String
  parentID : String
  name : String
  duration : Int
  trackNumber : Int
  discNumber : Int
  genre : String
  artistIDs : List String
  artistNames : List String
  album : String
  albumID : String
  year : Int
  rating : Int
  favorite : Bool
  playCount : Int
  filePath : String
  size : Int
  bitRate : Int
  comment : String
deriving Repr, DecidableEq

/-- `mediaprovider.Album`.  Modelled from the spec for the field list (the
struct is declared outside the given sources): identity, cover-art reference,
name, duration, aligned artist ID/name lists, year, track count, genre names,
favorite flag, release-type bitmask.  Numeric fields are Go `int`, embedded
as `Int`. -/
structure Album where
  id : String
  coverArtID : String
  name : String
  duration : Int
  artistIDs : List String
  artistNames : List String
  year : Int
  trackCount : Int
  genres : List String
  favorite : Bool
  releaseTypes : Nat
deriving Repr, DecidableEq

/-- `mediaprovider.AlbumWithTracks`. -/
structure AlbumWithTracks where
  album : Album
  tracks : List Track
deriving Repr, DecidableEq

/-! ## Entity translators -/

/-- `toTrack` on a non-nil `*subsonic.Child`.  The multi-artist extension
list is preferred when non-empty (the two `append` calls per element are the
pair fold); otherwise the legacy singular fields give one-element lists. -/
def toTrack (ch : Child) : Track :=
  let p : List String × List String :=
    if ch.artists.length > 0 then
      ch.artists.foldl (fun p a => (p.1 ++ [a.name], p.2 ++ [a.id])) ([], [])
    else
      ([ch.artist], [ch.artistID])
  { id := ch.id
    coverArtID := ch.coverArt
    parentID := ch.parent
    name := ch.title
    duration := ch.duration
    trackNumber := ch.track
    discNumber := ch.discNumber
    genre := ch.genre
    artistIDs := p.2
    artistNames := p.1
    album := ch.album
    albumID := ch.albumID
    year := ch.year
    rating := ch.userRating
    favorite := ch.starred != 0
    playCount := ch.playCount
    filePath := ch.path
    size := ch.size
    bitRate := ch.bitRate
    comment := ch.comment }

/-- The nil guard at the top of Go `toTrack`. -/
def toTrackFromServer : Option Child → Option Track
  | none => none
  | some ch => some (toTrack ch)

/-- `fillAlbum`: Go fills the fields of a caller-supplied `Album` in place;
every `Album` field is assigned, so the embedding returns the record. -/
def fillAlbum (subAlbum : AlbumID3) : Album :=
  let p : List String × List String :=
    if subAlbum.artists.length > 0 then
      subAlbum.artists.foldl (fun p a => (p.1 ++ [a.name], p.2 ++ [a.id])) ([], [])
    else
      ([subAlbum.artist], [subAlbum.artistID])
  let genres : List String :=
    if subAlbum.genres.length > 0 then
      subAlbum.genres.foldl (fun gs g => gs ++ [g.name]) []
    else
      [subAlbum.genre]
  let rt :=
    if subAlbum.isCompilation then
      normalizeReleaseTypes subAlbum.releaseTypes ||| ReleaseTypeCompilation
    else
      normalizeReleaseTypes subAlbum.releaseTypes
  { id := subAlbum.id
    coverArtID := subAlbum.coverArt
    name := subAlbum.name
    duration := subAlbum.duration
    artistIDs := p.2
    artistNames := p.1
    year := subAlbum.year
    trackCount := subAlbum.songCount
    genres := genres
    favorite := subAlbum.starred != 0
    releaseTypes := rt }

/-- `toAlbum` on a non-nil `*subsonic.AlbumID3`. -/
def toAlbum (al : AlbumID3) : Album :=
  fillAlbum al

/-! ## Filter engine (`backend/mediaprovider/mediaprovider.go`) -/

/-- `mediaprovider.AlbumFilter`.  Defaults are the Go zero values, so
`{}` is the Go composite literal `AlbumFilter{}`. -/
structure AlbumFilter where
  minYear : Int := 0
  maxYear : Int := 0
  genres : List String := []
  excludeFavorited : Bool := false
  excludeUnfavorited : Bool := false
deriving Repr, DecidableEq

/-- `strings.EqualFold`, embedded as equality after lowercase folding. -/
def stringEqualFold (a b : String) : Bool :=
  a.toLower == b.toLower

/-- `genresMatch`: any filter genre case-insensitively equal to any album
genre.  The nested Go `for` loops with early `return true` are `List.any`. -/
def genresMatch (filterGenres albumGenres : List String) : Bool :=
  filterGenres.any (fun g1 => albumGenres.any (fun g2 => stringEqualFold g1 g2))

/-- `AlbumFilter.IsNil`. -/
def AlbumFilter.IsNil (a : AlbumFilter) : Bool :=
  a.minYear == 0 && a.maxYear == 0 &&
    a.genres.length == 0 &&
    !a.excludeFavorited && !a.excludeUnfavorited

/-- `AlbumFilter.Matches` on a `*Album` (`none` = nil pointer). -/
def AlbumFilter.Matches (f : AlbumFilter) (album : Option Album) : Bool :=
  match album with
  | none => false
  | some album =>
    if f.excludeFavorited && album.favorite then false
    else if f.excludeUnfavorited && !album.favorite then false
    else if album.year < f.minYear || (f.maxYear > 0 && album.year > f.maxYear) then false
    else if f.genres.length == 0 then true
    else genresMatch f.genres album.genres

/-! ## TTL caches (`GetGenres` / `GetPlaylists`)

The provider state holds the four cache fields of `subsonicMediaProvider`.
A call takes the unix time at the cache check (`now`), the outcome the
client fetch would produce, and the unix time after the fetch (`now2`, the
second `time.Now().Unix()` in the Go body).  `fetchPerformed` records
whether the client was invoked; the single `fetch` argument is consumed at
most once, on the fetch path. -/

/-- `subsonic.Genre`. -/
structure SubGenre where
  name : String := ""
  songCount : Int := 0
  albumCount : Int := 0
deriving Repr, DecidableEq

/-- `mediaprovider.Genre`. -/
structure Genre where
  name : String
  albumCount : Int
  trackCount : Int
deriving Repr, DecidableEq

/-- The anonymous translation closure inside `GetGenres`. -/
def toGenre (g : SubGenre) : Genre :=
  { name := g.name
    albumCount := g.albumCount
    trackCount := g.songCount }

/-- `subsonic.Playlist`. -/
structure SubPlaylist where
  id : String := ""
  name : String := ""
  comment : String := ""
  owner : String := ""
  public : Bool := false
  songCount : Int := 0
  duration : Int := 0
  coverArt : String := ""
deriving Repr, DecidableEq

/-- `mediaprovider.Playlist`. -/
structure Playlist where
  id : String
  name : String
  description : String
  owner : String
  public : Bool
  trackCount : Int
  duration : Int
  coverArtID : String
deriving Repr, DecidableEq

/-- `fillPlaylist` / `toPlaylist` on a non-nil `*subsonic.Playlist`. -/
def toPlaylist (pl : SubPlaylist) : Playlist :=
  { name := pl.name
    id := pl.id
    coverArtID := pl.coverArt
    description := pl.comment
    owner := pl.owner
    public := pl.public
    trackCount := pl.songCount
    duration := pl.duration }

/-- `cacheValidDurationSeconds`. -/
def cacheValidDurationSeconds : Int := 60

/-- The cache fields of `subsonicMediaProvider`.  A Go nil slice is `none`;
a stored slice (the `sharedutil.MapSlice` result, non-nil even when empty)
is `some`. -/
structure ProviderCacheState where
  genresCached : Option (List Genre) := none
  genresCachedAt : Int := 0
  playlistsCached : Option (List Playlist) := none
  playlistsCachedAt : Int := 0
deriving Repr, DecidableEq

/-- Outcome of a cached-collection call: the provider state after the call,
the returned value or error, and whether the client fetch ran. -/
structure CacheCallResult (α : Type) where
  state : ProviderCacheState
  result : Except String α
  fetchPerformed : Bool
deriving Repr

/-- The fetch path of `GetGenres` (after the cache check fails). -/
def getGenresFetch (s : ProviderCacheState) (fetch : Except String (List SubGenre))
    (now2 : Int) : CacheCallResult (List Genre) :=
  match fetch with
  | Except.error e => { state := s, result := Except.error e, fetchPerformed := true }
  | Except.ok g =>
    let cached := g.map toGenre
    { state := { s with genresCached := some cached, genresCachedAt := now2 }
      result := Except.ok cached
      fetchPerformed := true }

/-- `GetGenres`.  The Go guard `genresCached != nil && now-cachedAt < 60`
short-circuits, so a nil cache goes straight to the fetch path. -/
def GetGenres (s : ProviderCacheState) (now : Int)
    (fetch : Except String (List SubGenre)) (now2 : Int) :
    CacheCallResult (List Genre) :=
  match s.genresCached with
  | some cached =>
    if now - s.genresCachedAt < cacheValidDurationSeconds then
      { state := s, result := Except.ok cached, fetchPerformed := false }
    else
      getGenresFetch s fetch now2
  | none => getGenresFetch s fetch now2

/-- The fetch path of `GetPlaylists`. -/
def getPlaylistsFetch (s : ProviderCacheState) (fetch : Except String (List SubPlaylist))
    (now2 : Int) : CacheCallResult (List Playlist) :=
  match fetch with
  | Except.error e => { state := s, result := Except.error e, fetchPerformed := true }
  | Except.ok pl =>
    let cached := pl.map toPlaylist
    { state := { s with playlistsCached := some cached, playlistsCachedAt := now2 }
      result := Except.ok cached
      fetchPerformed := true }

/-- `GetPlaylists`. -/
def GetPlaylists (s : ProviderCacheState) (now : Int)
    (fetch : Except String (List SubPlaylist)) (now2 : Int) :
    CacheCallResult (List Playlist) :=
  match s.playlistsCached with
  | some cached =>
    if now - s.playlistsCachedAt < cacheValidDurationSeconds then
      { state := s, result := Except.ok cached, fetchPerformed := false }
    else
      getPlaylistsFetch s fetch now2
  | none => getPlaylistsFetch s fetch now2

/-! ## Batched mutator (`SetRating`)

The per-item client call is passed in as `f : Nat → Option String`, the
outcome `client.SetRating(params.TrackIDs[idx], rating)` would produce for
the index `idx` (`none` = nil error).  The goroutines of one batch all start
before `wg.Wait()`; the embedding runs them in index order, one admissible
schedule.  `numIDs` is `len(params.TrackIDs)`. -/

/-- `batchSize` in `SetRating`. -/
def batchSize : Nat := 5

/-- The unit indexes launched by `batchSetRating(offs, wg)`:
the loop `for i := 0; i < batchSize && offs+i < len; i++` launches the unit
for `offs + i`. -/
def batchUnitIdxs (numIDs offs : Nat) : List Nat :=
  ((List.range batchSize).filter (fun i => offs + i < numIDs)).map (fun i => offs + i)

/-- One goroutine body folded over the `err` slot:
`if err == nil && newErr != nil { err = newErr }`. -/
def recordErr (f : Nat → Option String) (e : Option String) (idx : Nat) : Option String :=
  match e, f idx with
  | none, some newErr => some newErr
  | e, _ => e

/-- One batch: launch every unit of the batch and join (`wg.Wait()`). -/
def runBatch (f : Nat → Option String) (numIDs offs : Nat) (e : Option String) :
    Option String :=
  (batchUnitIdxs numIDs offs).foldl (recordErr f) e

/-- `numBatches := int(math.Ceil(float64(len(trackIDs)) / float64(batchSize)))`;
the float ceiling of `n / 5` is exactly `(n + 4) / 5` in `Nat`. -/
def numBatches (numIDs : Nat) : Nat :=
  (numIDs + batchSize - 1) / batchSize

/-- `SetRating`: run the batches sequentially, then return the captured
error slot. -/
def SetRating (f : Nat → Option String) (numIDs : Nat) : Option String :=
  (List.range (numBatches numIDs)).foldl
    (fun e b => runBatch f numIDs (b * batchSize) e) none

/-- The indexes of all per-item client calls `SetRating` issues, in batch
order. -/
def setRatingAttempts (numIDs : Nat) : List Nat :=
  (List.range (numBatches numIDs)).flatMap (fun b => batchUnitIdxs numIDs (b * batchSize))

/-! ## Capability check (`CanStreamWithOffset`) -/

/-- `subsonic.OpenSubsonicExtension`. -/
structure OpenSubsonicExtension where
  name : String := ""
  versions : List Int := []
deriving Repr, DecidableEq

/-- `subsonic.TranscodeOffset`, the named extension constant of the
go-subsonic library. -/
def TranscodeOffset : String := "transcodeOffset"

/-- `CanStreamWithOffset`.  The argument is the outcome of
`client.GetOpenSubsonicExtensions()`; the `for` loop with early
`return true` is `List.any`. -/
def CanStreamWithOffset (query : Except String (List OpenSubsonicExtension)) : Bool :=
  match query with
  | Except.error _ => false
  | Except.ok extensions => extensions.any (fun ext => ext.name == TranscodeOffset)

/-! ## Playback reporting (`TrackEndedPlayback`) -/

/-- One `client.Scrobble` invocation: the track ID and the value of the
`"submission"` parameter. -/
structure ScrobbleCall where
  trackID : String
  submission : Bool
deriving Repr, DecidableEq

/-- `TrackEndedPlayback`.  `scrobble` is the transport collaborator; the
first component of the result lists the scrobble calls issued, the second
is the returned error. -/
def TrackEndedPlayback (scrobble : String → Bool → Option String)
    (trackID : String) (_positionSecs : Int) (submission : Bool) :
    List ScrobbleCall × Option String :=
  if !submission then
    ([], none)
  else
    ([{ trackID := trackID, submission := true }], scrobble trackID true)

/-! ## Prefetch callback registration and translation operations

`SetPrefetchCoverCallback` stores the callback on the provider.  For the
translation operations the second component of the result is the trace of
cover-art IDs the operation passes to the prefetch callback; the source
bodies of `GetTrack` and `GetAlbum` contain no callback invocation, so the
trace they produce is empty. -/

/-- The `prefetchCoverCB` field of `subsonicMediaProvider` (`none` = the Go
nil function). -/
structure CallbackState (α : Type) where
  prefetchCoverCB : Option α := none

/-- `SetPrefetchCoverCallback`. -/
def SetPrefetchCoverCallback (s : CallbackState α) (cb : α) : CallbackState α :=
  { s with prefetchCoverCB := some cb }

/-- `GetTrack`: fetch the song record, translate it with `toTrack`.  The
second component is the prefetch-callback invocation trace. -/
def GetTrack (fetch : Except String Child) : Except String Track × List String :=
  match fetch with
  | Except.error e => (Except.error e, [])
  | Except.ok tr => (Except.ok (toTrack tr), [])

/-- `GetAlbum`: fetch the album record, translate the nested song list with
`toTrack` and the album fields with `fillAlbum`.  The second component is
the prefetch-callback invocation trace. -/
def GetAlbum (fetch : Except String AlbumID3) : Except String AlbumWithTracks × List String :=
  match fetch with
  | Except.error e => (Except.error e, [])
  | Except.ok al => (Except.ok { album := fillAlbum al, tracks := al.song.map toTrack }, [])

/-! ## Helper lemmas -/

theorem lor_ne_zero_left {x : Nat} (y : Nat) (h : x ≠ 0) : x ||| y ≠ 0 := by
  intro h0
  apply h
  apply Nat.eq_of_testBit_eq
  intro i
  have hb := congrArg (fun n => n.testBit i) h0
  simp only [Nat.testBit_lor, Nat.zero_testBit, Bool.or_eq_false_iff] at hb
  simp [hb.1]

theorem normalizeReleaseTypes_ne_zero (releaseTypes : List String) :
    normalizeReleaseTypes releaseTypes ≠ 0 := by
  simp only [normalizeReleaseTypes]
  split
  · decide
  · assumption

theorem foldl_append_pair (l : List ArtistRef) (ns ids : List String) :
    l.foldl (fun p a => (p.1 ++ [a.name], p.2 ++ [a.id])) (ns, ids) =
      (ns ++ l.map ArtistRef.name, ids ++ l.map ArtistRef.id) := by
  induction l generalizing ns ids with
  | nil => simp
  | cons a l ih => simp [ih]

/-! ## Claim C1 -/

/-- Claim C1: for every list of release-type labels and every compilation
flag, the release-type mask produced by `normalizeReleaseTypes` plus the
compilation-bit or in `fillAlbum` is non-zero; and a record with no labels
and compilation flag false gets exactly the album bit. -/
theorem fillAlbum_releaseTypes_spec (al : AlbumID3) :
    (fillAlbum al).releaseTypes ≠ 0 ∧
    (al.releaseTypes = [] → al.isCompilation = false →
      (fillAlbum al).releaseTypes = ReleaseTypeAlbum) := by
  constructor
  · show (if al.isCompilation then _ else _) ≠ 0
    split
    · exact lor_ne_zero_left _ (normalizeReleaseTypes_ne_zero al.releaseTypes)
    · exact normalizeReleaseTypes_ne_zero al.releaseTypes
  · intro hl hc
    show (if al.isCompilation then _ else _) = _
    rw [hc, if_neg (by simp), hl]
    rfl

/-- Witness for C1 at the empty album record: no labels, not a compilation,
so the mask is exactly the album bit and in particular non-zero. -/
theorem fillAlbum_releaseTypes_spec_witness :
    (fillAlbum {}).releaseTypes = ReleaseTypeAlbum ∧ (fillAlbum {}).releaseTypes ≠ 0 :=
  ⟨(fillAlbum_releaseTypes_spec {}).2 rfl rfl, (fillAlbum_releaseTypes_spec {}).1⟩

/-! ## Claim C2 -/

/-- Claim C2: when a track or album record carries a non-empty multi-artist
extension list, the translated artist ID and name lists are exactly the IDs
and names of that list in order, the legacy singular fields ignored; when
the extension list is empty, the lists are singletons built from the legacy
fields. -/
theorem translator_artist_precedence (ch : Child) (al : AlbumID3) :
    (ch.artists ≠ [] →
      (toTrack ch).artistIDs = ch.artists.map ArtistRef.id ∧
      (toTrack ch).artistNames = ch.artists.map ArtistRef.name) ∧
    (ch.artists = [] →
      (toTrack ch).artistIDs = [ch.artistID] ∧
      (toTrack ch).artistNames = [ch.artist]) ∧
    (al.artists ≠ [] →
      (fillAlbum al).artistIDs = al.artists.map ArtistRef.id ∧
      (fillAlbum al).artistNames = al.artists.map ArtistRef.name) ∧
    (al.artists = [] →
      (fillAlbum al).artistIDs = [al.artistID] ∧
      (fillAlbum al).artistNames = [al.artist]) := by
  refine ⟨fun h => ?_, fun h => ?_, fun h => ?_, fun h => ?_⟩
  · have hl : 0 < ch.artists.length := List.length_pos.mpr h
    constructor <;> simp [toTrack, hl, foldl_append_pair]
  · constructor <;> simp [toTrack, h]
  · have hl : 0 < al.artists.length := List.length_pos.mpr h
    constructor <;> simp [fillAlbum, hl, foldl_append_pair]
  · constructor <;> simp [fillAlbum, h]

def childTwoArtists : Child :=
  { artists := [{ id := "a1", name := "N1" }, { id := "a2", name := "N2" }]
    artist := "Legacy", artistID := "L1" }

def childLegacyOnly : Child :=
  { artist := "Legacy", artistID := "L1" }

def albumOneArtist : AlbumID3 :=
  { artists := [{ id := "b1", name := "M1" }], artist := "Leg", artistID := "L2" }

def albumLegacyOnly : AlbumID3 :=
  { artist := "Leg", artistID := "L2" }

/-- Witness for C2 on concrete records of each shape. -/
theorem translator_artist_precedence_witness :
    (toTrack childTwoArtists).artistIDs = ["a1", "a2"] ∧
    (toTrack childTwoArtists).artistNames = ["N1", "N2"] ∧
    (toTrack childLegacyOnly).artistIDs = ["L1"] ∧
    (toTrack childLegacyOnly).artistNames = ["Legacy"] ∧
    (fillAlbum albumOneArtist).artistIDs = ["b1"] ∧
    (fillAlbum albumLegacyOnly).artistNames = ["Leg"] := by
  have h1 := translator_artist_precedence childTwoArtists albumOneArtist
  have h2 := translator_artist_precedence childLegacyOnly albumLegacyOnly
  refine ⟨?_, ?_, ?_, ?_, ?_, ?_⟩
  · rw [(h1.1 (by decide)).1]; rfl
  · rw [(h1.1 (by decide)).2]; rfl
  · rw [(h2.2.1 rfl).1]; rfl
  · rw [(h2.2.1 rfl).2]; rfl
  · rw [(h1.2.2.1 (by decide)).1]; rfl
  · rw [(h2.2.2.2 rfl).2]; rfl

/-! ## Claims C8 and C10 -/

/-- An album whose year is the Go `int` value `-1`; all other fields
arbitrary. -/
def negativeYearAlbum : Album :=
  { id := "al1", coverArtID := "c1", name := "A", duration := 0
    artistIDs := ["x"], artistNames := ["X"], year := -1, trackCount := 0
    genres := ["rock"], favorite := false, releaseTypes := 1 }

/-- Counterexample to claim C8 as stated: the zero filter is the nil filter,
yet `Matches` rejects the non-null album with year `-1`, because the clause
`album.Year < f.MinYear` fires with `MinYear = 0`. -/
theorem nilFilter_matches_counterexample :
    ({} : AlbumFilter).IsNil = true ∧
    negativeYearAlbum.year = -1 ∧
    ({} : AlbumFilter).Matches (some negativeYearAlbum) = false := by
  refine ⟨rfl, rfl, by decide⟩

/-- Claim C8 (amended): `AlbumFilter{}.IsNil()` is true, and under the zero
filter `Matches` returns true for every non-null album whose year is
nonnegative (a negative-year album fails the `year < MinYear` clause). -/
theorem nilFilter_matches_spec (album : Album) (h : 0 ≤ album.year) :
    ({} : AlbumFilter).IsNil = true ∧
    ({} : AlbumFilter).Matches (some album) = true := by
  have h2 : ¬(album.year < 0) := by omega
  exact ⟨rfl, by simp [AlbumFilter.Matches, h2]⟩

/-- A fully populated sample album with a positive year. -/
def sampleAlbum : Album :=
  { id := "al2", coverArtID := "c2", name := "B", duration := 2402
    artistIDs := ["x1", "x2"], artistNames := ["X1", "X2"], year := 1990
    trackCount := 10, genres := ["rock", "pop"], favorite := true
    releaseTypes := 1025 }

/-- Witness for the amended C8 at a concrete album. -/
theorem nilFilter_matches_spec_witness :
    (0 : Int) ≤ sampleAlbum.year ∧
    ({} : AlbumFilter).Matches (some sampleAlbum) = true :=
  ⟨by decide, (nilFilter_matches_spec sampleAlbum (by decide)).2⟩

/-- Claim C10: a filter with both exclusion flags set matches no album:
favorited albums are rejected by the `ExcludeFavorited` clause, unfavorited
ones by the `ExcludeUnfavorited` clause, and a nil album never matches. -/
theorem exclusion_flags_match_nothing (f : AlbumFilter) (h1 : f.excludeFavorited = true)
    (h2 : f.excludeUnfavorited = true) (album : Option Album) :
    f.Matches album = false := by
  match album with
  | none => rfl
  | some album =>
    simp only [AlbumFilter.Matches, h1, h2, Bool.true_and]
    cases hfav : album.favorite <;> simp

/-- Witness for C10 at a concrete filter and album. -/
theorem exclusion_flags_match_nothing_witness :
    AlbumFilter.Matches
      { excludeFavorited := true, excludeUnfavorited := true } (some sampleAlbum) = false :=
  exclusion_flags_match_nothing _ rfl rfl _

/-! ## Claim C6 -/

/-- Claim C6: `CanStreamWithOffset` is true exactly when the extension query
succeeds and the returned list contains the transcode-offset extension; a
failed query yields false, never an error. -/
theorem canStreamWithOffset_spec (query : Except String (List OpenSubsonicExtension)) :
    (CanStreamWithOffset query = true ↔
      ∃ exts, query = Except.ok exts ∧ ∃ ext ∈ exts, ext.name = TranscodeOffset) ∧
    (∀ e, CanStreamWithOffset (Except.error e) = false) := by
  constructor
  · cases query with
    | error e => simp [CanStreamWithOffset]
    | ok exts => simp [CanStreamWithOffset, List.any_eq_true]
  · intro e
    rfl

/-- Witness for C6: a transport failure reports false; a list advertising
the transcode-offset extension reports true. -/
theorem canStreamWithOffset_spec_witness :
    CanStreamWithOffset (Except.error "network down") = false ∧
    CanStreamWithOffset (Except.ok [{ name := "transcodeOffset" }]) = true := by
  constructor
  · exact (canStreamWithOffset_spec (Except.error "network down")).2 "network down"
  · exact (canStreamWithOffset_spec _).1.mpr
      ⟨_, rfl, ⟨{ name := "transcodeOffset" }, by simp, rfl⟩⟩

/-! ## Claim C7 -/

/-- Claim C7: with `submission = false`, `TrackEndedPlayback` issues no
scrobble call and returns a nil error, for every transport behavior; with
`submission = true` it issues exactly one scrobble call carrying the
submission flag `true` and returns that call's outcome. -/
theorem trackEndedPlayback_spec (scrobble : String → Bool → Option String)
    (trackID : String) (pos : Int) :
    TrackEndedPlayback scrobble trackID pos false = ([], none) ∧
    (TrackEndedPlayback scrobble trackID pos true).1 =
      [{ trackID := trackID, submission := true }] ∧
    (TrackEndedPlayback scrobble trackID pos true).2 = scrobble trackID true :=
  ⟨rfl, rfl, rfl⟩

/-! ## Claim C9 -/

/-- A track record carrying a cover-art reference. -/
def childWithCover : Child :=
  { id := "t9", coverArt := "cover-9" }

/-- Counterexample to claim C9 as stated: `GetTrack` translates a record
carrying the cover-art reference `"cover-9"`, yet its prefetch-callback
invocation trace is empty — the registered callback is not invoked. -/
theorem prefetch_callback_counterexample :
    childWithCover.coverArt = "cover-9" ∧
    (GetTrack (Except.ok childWithCover)).1 = Except.ok (toTrack childWithCover) ∧
    (GetTrack (Except.ok childWithCover)).2 = [] ∧
    "cover-9" ∉ (GetTrack (Except.ok childWithCover)).2 := by
  refine ⟨rfl, rfl, rfl, by simp [GetTrack]⟩

/-- Claim C9 (amended): `SetPrefetchCoverCallback` stores the callback on
the provider, but the translation operations present in the provider
(`GetTrack`, `GetAlbum`) never invoke it: their prefetch traces are empty
for every fetch outcome. -/
theorem prefetch_callback_registration_only {α : Type} (s : CallbackState α) (cb : α)
    (fetchTrack : Except String Child) (fetchAlbum : Except String AlbumID3) :
    (SetPrefetchCoverCallback s cb).prefetchCoverCB = some cb ∧
    (GetTrack fetchTrack).2 = [] ∧
    (GetAlbum fetchAlbum).2 = [] := by
  refine ⟨rfl, ?_, ?_⟩
  · cases fetchTrack <;> rfl
  · cases fetchAlbum <;> rfl

/-! ## Claim C3 -/

theorem filter_range_lt (offs n : Nat) : ∀ k,
    (List.range k).filter (fun i => offs + i < n) = List.range (min k (n - offs)) := by
  intro k
  induction k with
  | zero => simp
  | succ k ih =>
    rw [List.range_succ, List.filter_append, ih]
    by_cases h : offs + k < n
    · have h1 : min (k + 1) (n - offs) = min k (n - offs) + 1 := by omega
      have h2 : min k (n - offs) = k := by omega
      simp [h, h1, h2, List.range_succ]
    · have h1 : min (k + 1) (n - offs) = min k (n - offs) := by omega
      simp [h, h1]

theorem batchUnitIdxs_eq (n offs : Nat) :
    batchUnitIdxs n offs = List.range' offs (min batchSize (n - offs)) := by
  rw [batchUnitIdxs, filter_range_lt, List.range'_eq_map_range]

theorem flatMap_batches_eq (n : Nat) : ∀ B,
    (List.range B).flatMap (fun b => batchUnitIdxs n (b * batchSize)) =
      List.range (min (B * batchSize) n) := by
  intro B
  induction B with
  | zero => simp
  | succ B ih =>
    rw [List.range_succ, List.flatMap_append, ih, List.flatMap_singleton, batchUnitIdxs_eq]
    rcases Nat.le_total (B * batchSize) n with h | h
    · have h1 : min (B * batchSize) n = B * batchSize := Nat.min_eq_left h
      have h2 : min ((B + 1) * batchSize) n =
          B * batchSize + min batchSize (n - B * batchSize) := by
        simp only [batchSize] at h ⊢
        omega
      rw [h1, h2, List.range_eq_range', List.range_eq_range']
      have key := List.range'_append 0 (B * batchSize) (min batchSize (n - B * batchSize)) 1
      simp only [Nat.one_mul, Nat.zero_add] at key
      rw [Nat.add_comm (B * batchSize) (min batchSize (n - B * batchSize))]
      exact key
    · have h1 : min (B * batchSize) n = n := Nat.min_eq_right h
      have h2 : min batchSize (n - B * batchSize) = 0 := by
        simp only [batchSize] at h ⊢
        omega
      have h3 : min ((B + 1) * batchSize) n = n := by
        simp only [batchSize] at h ⊢
        omega
      rw [h1, h2, h3, List.range'_zero, List.append_nil]

theorem setRatingAttempts_eq_range (numIDs : Nat) :
    setRatingAttempts numIDs = List.range numIDs := by
  rw [setRatingAttempts, flatMap_batches_eq]
  congr 1
  simp only [numBatches, batchSize]
  omega

theorem foldl_recordErr_some (f : Nat → Option String) (x : String) (l : List Nat) :
    l.foldl (recordErr f) (some x) = some x := by
  induction l with
  | nil => rfl
  | cons a l ih =>
    rw [List.foldl_cons]
    have hstep : recordErr f (some x) a = some x := by
      unfold recordErr
      cases f a <;> rfl
    rw [hstep, ih]

theorem foldl_recordErr_eq_head (f : Nat → Option String) (l : List Nat) :
    l.foldl (recordErr f) none = (l.filterMap f).head? := by
  induction l with
  | nil => rfl
  | cons a l ih =>
    rw [List.foldl_cons, List.filterMap_cons]
    cases ha : f a with
    | none =>
      have hstep : recordErr f none a = none := by
        unfold recordErr
        rw [ha]
      rw [hstep, ih]
    | some x =>
      have hstep : recordErr f none a = some x := by
        unfold recordErr
        rw [ha]
      rw [hstep, foldl_recordErr_some]
      rfl

theorem SetRating_eq_foldl (f : Nat → Option String) (numIDs : Nat) :
    SetRating f numIDs = (setRatingAttempts numIDs).foldl (recordErr f) none := by
  show _ = ((List.range (numBatches numIDs)).map
      (fun b => batchUnitIdxs numIDs (b * batchSize))).flatten.foldl (recordErr f) none
  rw [List.foldl_flatten, List.foldl_map]
  rfl

/-- Claim C3: `SetRating` over `numIDs` track IDs runs `ceil(numIDs/5)`
sequential batches of at most 5 units; the per-item calls it issues are
exactly one per ID, in order, regardless of failures (later batches still
run); the result is the first error among the unit outcomes, and nil when
every unit succeeds. -/
theorem setRating_spec (f : Nat → Option String) (numIDs : Nat) :
    numIDs ≤ batchSize * numBatches numIDs ∧
    (∀ B, numIDs ≤ batchSize * B → numBatches numIDs ≤ B) ∧
    (∀ b, (batchUnitIdxs numIDs (b * batchSize)).length ≤ batchSize) ∧
    setRatingAttempts numIDs = List.range numIDs ∧
    SetRating f numIDs = ((List.range numIDs).filterMap f).head? ∧
    ((∀ i, i < numIDs → f i = none) → SetRating f numIDs = none) := by
  refine ⟨?_, ?_, ?_, setRatingAttempts_eq_range numIDs, ?_, ?_⟩
  · simp only [numBatches, batchSize]
    omega
  · intro B hB
    simp only [numBatches, batchSize] at hB ⊢
    omega
  · intro b
    rw [batchUnitIdxs_eq, List.length_range']
    exact Nat.min_le_left _ _
  · rw [SetRating_eq_foldl, setRatingAttempts_eq_range, foldl_recordErr_eq_head]
  · intro hall
    rw [SetRating_eq_foldl, setRatingAttempts_eq_range, foldl_recordErr_eq_head]
    have hnil : (List.range numIDs).filterMap f = [] := by
      rw [List.filterMap_eq_nil_iff]
      intro a ha
      exact hall a (List.mem_range.mp ha)
    rw [hnil]
    rfl

/-- Witness for C3 at 12 IDs: 3 batches; with all units succeeding the
result is nil; with the 3rd unit (index 2) failing the result is that
failure while all 12 units are still attempted. -/
theorem setRating_spec_witness :
    numBatches 12 = 3 ∧
    numBatches 12 ≤ 3 ∧
    setRatingAttempts 12 = List.range 12 ∧
    SetRating (fun _ => none) 12 = none ∧
    SetRating (fun i => if i = 2 then some "boom" else none) 12 = some "boom" := by
  have h := setRating_spec (fun _ => none) 12
  have h2 := setRating_spec (fun i => if i = 2 then some "boom" else none) 12
  refine ⟨rfl, h.2.1 3 (by decide), h2.2.2.2.1, h.2.2.2.2.2 (fun i _ => rfl), ?_⟩
  rw [h2.2.2.2.2.1]
  rfl

/-! ## Claims C4 and C5 -/

theorem getGenres_fetchPath (s : ProviderCacheState) (now now2 : Int)
    (fetch : Except String (List SubGenre))
    (h : s.genresCached = none ∨ cacheValidDurationSeconds ≤ now - s.genresCachedAt) :
    GetGenres s now fetch now2 = getGenresFetch s fetch now2 := by
  cases hc : s.genresCached with
  | none => simp [GetGenres, hc]
  | some v =>
    have hns : ¬(now - s.genresCachedAt < cacheValidDurationSeconds) := by
      rcases h with h | h
      · rw [hc] at h
        exact absurd h (by simp)
      · omega
    simp [GetGenres, hc, hns]

theorem getPlaylists_fetchPath (s : ProviderCacheState) (now now2 : Int)
    (fetch : Except String (List SubPlaylist))
    (h : s.playlistsCached = none ∨ cacheValidDurationSeconds ≤ now - s.playlistsCachedAt) :
    GetPlaylists s now fetch now2 = getPlaylistsFetch s fetch now2 := by
  cases hc : s.playlistsCached with
  | none => simp [GetPlaylists, hc]
  | some v =>
    have hns : ¬(now - s.playlistsCachedAt < cacheValidDurationSeconds) := by
      rcases h with h | h
      · rw [hc] at h
        exact absurd h (by simp)
      · omega
    simp [GetPlaylists, hc, hns]

/-- Claim C4: a call with a cached value younger than 60 seconds returns the
cached value, performs no fetch, and leaves the state unchanged; otherwise
the call performs the fetch and, on success, installs the translated value
and the fetch-completion time as the new cache pair and returns the fresh
value — for both the genres and the playlists cache. -/
theorem cache_ttl_spec (s : ProviderCacheState) (now now2 : Int)
    (gfetch : Except String (List SubGenre)) (g : List SubGenre)
    (pfetch : Except String (List SubPlaylist)) (pl : List SubPlaylist) :
    (∀ v, s.genresCached = some v → now - s.genresCachedAt < cacheValidDurationSeconds →
      GetGenres s now gfetch now2 = ⟨s, Except.ok v, false⟩) ∧
    ((s.genresCached = none ∨ cacheValidDurationSeconds ≤ now - s.genresCachedAt) →
      (GetGenres s now gfetch now2).fetchPerformed = true ∧
      GetGenres s now (Except.ok g) now2 =
        ⟨{ s with genresCached := some (g.map toGenre), genresCachedAt := now2 },
          Except.ok (g.map toGenre), true⟩) ∧
    (∀ w, s.playlistsCached = some w → now - s.playlistsCachedAt < cacheValidDurationSeconds →
      GetPlaylists s now pfetch now2 = ⟨s, Except.ok w, false⟩) ∧
    ((s.playlistsCached = none ∨ cacheValidDurationSeconds ≤ now - s.playlistsCachedAt) →
      (GetPlaylists s now pfetch now2).fetchPerformed = true ∧
      GetPlaylists s now (Except.ok pl) now2 =
        ⟨{ s with playlistsCached := some (pl.map toPlaylist), playlistsCachedAt := now2 },
          Except.ok (pl.map toPlaylist), true⟩) := by
  refine ⟨fun v hv hfresh => ?_, fun hstale => ⟨?_, ?_⟩, fun w hw hfresh => ?_,
    fun hstale => ⟨?_, ?_⟩⟩
  · simp [GetGenres, hv, hfresh]
  · rw [getGenres_fetchPath s now now2 gfetch hstale]
    cases gfetch <;> rfl
  · rw [getGenres_fetchPath s now now2 (Except.ok g) hstale]
    rfl
  · simp [GetPlaylists, hw, hfresh]
  · rw [getPlaylists_fetchPath s now now2 pfetch hstale]
    cases pfetch <;> rfl
  · rw [getPlaylists_fetchPath s now now2 (Except.ok pl) hstale]
    rfl

def genreRock : Genre := { name := "Rock", albumCount := 5, trackCount := 50 }

def playlistMix : Playlist :=
  { id := "p1", name := "Mix", description := "d", owner := "me", public := false
    trackCount := 3, duration := 600, coverArtID := "pc1" }

/-- A provider whose two caches were filled at unix time 1000. -/
def warmState : ProviderCacheState :=
  { genresCached := some [genreRock], genresCachedAt := 1000
    playlistsCached := some [playlistMix], playlistsCachedAt := 1000 }

def jazzFetch : List SubGenre := [{ name := "Jazz", songCount := 30, albumCount := 3 }]

def subPlaylistFetch : List SubPlaylist :=
  [{ id := "p2", name := "New", comment := "c", owner := "me", public := true
     songCount := 2, duration := 100, coverArt := "pc2" }]

/-- Witness for C4: at unix time 1030 (cache age 30 s) both calls hit the
cache without fetching; at unix time 1060 (cache age 60 s) both calls fetch
and install the translated result with the fetch-completion timestamp. -/
theorem cache_ttl_spec_witness :
    GetGenres warmState 1030 (Except.error "down") 1031 =
      ⟨warmState, Except.ok [genreRock], false⟩ ∧
    GetPlaylists warmState 1030 (Except.error "down") 1031 =
      ⟨warmState, Except.ok [playlistMix], false⟩ ∧
    GetGenres warmState 1060 (Except.ok jazzFetch) 1061 =
      ⟨{ warmState with genresCached := some (jazzFetch.map toGenre), genresCachedAt := 1061 },
        Except.ok (jazzFetch.map toGenre), true⟩ ∧
    GetPlaylists warmState 1060 (Except.ok subPlaylistFetch) 1061 =
      ⟨{ warmState with playlistsCached := some (subPlaylistFetch.map toPlaylist), playlistsCachedAt := 1061 },
        Except.ok (subPlaylistFetch.map toPlaylist), true⟩ := by
  have hfresh := cache_ttl_spec warmState 1030 1031 (Except.error "down") jazzFetch
    (Except.error "down") subPlaylistFetch
  have hstale := cache_ttl_spec warmState 1060 1061 (Except.ok jazzFetch) jazzFetch
    (Except.ok subPlaylistFetch) subPlaylistFetch
  refine ⟨hfresh.1 [genreRock] rfl (by decide), hfresh.2.2.1 [playlistMix] rfl (by decide),
    (hstale.2.1 (Or.inr (by decide))).2, (hstale.2.2.2 (Or.inr (by decide))).2⟩

/-- Claim C5: when the fetch path is taken and the fetch fails, both cached
value and cached timestamp are left exactly as they were and the fetch error
is returned unchanged — for both the genres and the playlists cache. -/
theorem cache_error_spec (s : ProviderCacheState) (now now2 : Int) (e1 e2 : String) :
    ((s.genresCached = none ∨ cacheValidDurationSeconds ≤ now - s.genresCachedAt) →
      GetGenres s now (Except.error e1) now2 = ⟨s, Except.error e1, true⟩) ∧
    ((s.playlistsCached = none ∨ cacheValidDurationSeconds ≤ now - s.playlistsCachedAt) →
      GetPlaylists s now (Except.error e2) now2 = ⟨s, Except.error e2, true⟩) := by
  constructor
  · intro hstale
    rw [getGenres_fetchPath s now now2 (Except.error e1) hstale]
    rfl
  · intro hstale
    rw [getPlaylists_fetchPath s now now2 (Except.error e2) hstale]
    rfl

/-- Witness for C5: a cold provider (`{}`: both caches nil) propagates the
fetch error and keeps its state. -/
theorem cache_error_spec_witness :
    GetGenres {} 0 (Except.error "boom") 0 = ⟨{}, Except.error "boom", true⟩ ∧
    GetPlaylists {} 0 (Except.error "boom") 0 = ⟨{}, Except.error "boom", true⟩ :=
  ⟨(cache_error_spec {} 0 0 "boom" "boom").1 (Or.inl rfl),
    (cache_error_spec {} 0 0 "boom" "boom").2 (Or.inl rfl)⟩

end Supersonic
